import Mathlib

/-!
# Verification of the mock conversation API (`mock_conversation_api.py`)

Shallow embedding of the conversational valuation session engine:
the flow catalog `CONVERSATION_FLOW`, the in-memory session store
(a Python dict modelled as an association list with Python dict
update/lookup semantics), and the two request handlers
`start_conversation` and `conversation_step`.

Modelling conventions:
* Python `float` values are modelled as exact rationals (`ℚ`).  The
  float literals `2.5`, `0.2`, `0.8`, `1.2`, `0.85` of the source are
  carried over as the corresponding exact rationals; every concrete
  input used in a theorem below is one where binary floating point
  evaluates these products exactly, so the rational model agrees with
  the IEEE-754 behaviour of the source on those inputs.
* Python `int(x)` (truncation toward zero) is `pyInt`.
* Python list indexing (including negative indices and `IndexError`)
  is `pyListGet`.
* `datetime.utcnow()` is an explicit parameter (`now` for the
  timestamp used in the valuation id, `started_at` for the session
  creation time); `uuid.uuid4()` is the explicit `session_id`
  parameter of `start_conversation`.
* The two return shapes of `ConversationStepResponse` actually
  produced by the handler (in-progress with `complete=False`, and
  complete with `complete=True` carrying a valuation result) are the
  two constructors of `StepResponse`; a raised exception
  (`HTTPException` or an uncaught `IndexError` from list indexing) is
  a `StepFailure`.
-/

/-- Python's `int()` applied to a number: truncation toward zero. -/
def pyInt (q : ℚ) : ℤ := if q < 0 then ⌈q⌉ else ⌊q⌋

/-- Python list indexing `l[i]`: non-negative indices from the front,
negative indices count from the end, anything else raises `IndexError`
(modelled as `none`). -/
def pyListGet {α : Type} (l : List α) (i : ℤ) : Option α :=
  if 0 ≤ i then l.get? i.toNat
  else if 0 ≤ i + l.length then l.get? (i + l.length).toNat
  else none

/-- A Python dict with string keys, as an association list in insertion
order (the order is irrelevant to lookup; keeping it makes states
concrete). -/
abbrev Dict (α : Type) : Type := List (String × α)

/-- Python dict lookup `d[k]` / `d.get(k)`. -/
def dget {α : Type} : Dict α → String → Option α
  | [], _ => none
  | (k, v) :: rest, key => if k = key then some v else dget rest key

/-- Python dict update `d[k] = v`: overwrite in place if the key is
present, append otherwise. -/
def dset {α : Type} : Dict α → String → α → Dict α
  | [], key, val => [(key, val)]
  | (k, v) :: rest, key, val =>
      if k = key then (key, val) :: rest else (k, v) :: dset rest key val

/-- Python `d.get(k, default)`. -/
def dgetD {α : Type} (d : Dict α) (key : String) (dfl : α) : α :=
  (dget d key).getD dfl

/-- The `input_type` strings of the flow catalog. -/
inductive InputType : Type
  | number
  | text
deriving DecidableEq

/-- A validation record `{"min": _, "max": _}` of a flow entry. -/
structure Validation : Type where
  min : ℤ
  max : ℤ
deriving DecidableEq

/-- One entry of `CONVERSATION_FLOW`. -/
structure FlowStep : Type where
  step : ℤ
  field : String
  input_type : InputType
  help_text : String
  validation : Validation
  ai_message_template : String
deriving DecidableEq

instance : Inhabited FlowStep :=
  ⟨⟨0, "", InputType.number, "", ⟨0, 0⟩, ""⟩⟩

/-- The conversation flow definition (the six-entry catalog of the
source, in its exact order). -/
def CONVERSATION_FLOW : List FlowStep :=
  [ { step := 0, field := "revenue", input_type := InputType.number,
      help_text := "Enter your annual revenue in euros",
      validation := ⟨10000, 1000000000⟩,
      ai_message_template := "Hi! I'll help you get a quick business valuation. Let's start with your annual revenue - what was your total revenue last year?" },
    { step := 1, field := "ebitda", input_type := InputType.number,
      help_text := "Enter your EBITDA (earnings before interest, taxes, depreciation, and amortization)",
      validation := ⟨0, 500000000⟩,
      ai_message_template := "Great! Now, what was your EBITDA (earnings before interest, taxes, depreciation, and amortization) last year?" },
    { step := 2, field := "employees", input_type := InputType.number,
      help_text := "How many employees does your company have?",
      validation := ⟨1, 10000⟩,
      ai_message_template := "Thanks! How many employees does your company have?" },
    { step := 3, field := "industry", input_type := InputType.text,
      help_text := "What industry is your company in?",
      validation := ⟨2, 100⟩,
      ai_message_template := "What industry is your company in? (e.g., Technology, Manufacturing, Services)" },
    { step := 4, field := "growth_rate", input_type := InputType.number,
      help_text := "What's your expected annual growth rate?",
      validation := ⟨-50, 200⟩,
      ai_message_template := "What's your expected annual growth rate for the next few years? (as a percentage, e.g., 15 for 15%)" },
    { step := 5, field := "country", input_type := InputType.text,
      help_text := "What country is your company based in?",
      validation := ⟨2, 50⟩,
      ai_message_template := "Finally, what country is your company based in?" } ]

/-- The number of steps of the flow. -/
def stepCount : ℕ := CONVERSATION_FLOW.length

/-- A session record of the in-memory store: `company_id`, current
`step` ordinal, the answer mapping `data`, and `started_at`. -/
structure Session : Type where
  company_id : String
  step : ℤ
  data : Dict ℚ
  started_at : String
deriving DecidableEq

/-- The request body of the step endpoint.  `value` has pydantic type
`float`: only numbers reach the handler (see `floatCoercible` for the
transport-level consequence). -/
structure ConversationStepRequest : Type where
  company_id : String
  session_id : String
  step : ℤ
  field : String
  value : ℚ
deriving DecidableEq

/-- An echoed value of the valuation result: the submitted values are
floats, but the defaults for `industry` and `country` are strings, so
the echo is heterogeneous. -/
inductive PyVal : Type
  | num (q : ℚ)
  | str (s : String)
deriving DecidableEq

/-- The `valuation_result` dict built by the handler on completion. -/
structure ValuationResult : Type where
  valuation_id : String
  equity_value : ℤ
  valuation_range_min : ℤ
  valuation_range_max : ℤ
  confidence_score : ℚ
  methodology : String
  company_name : String
  revenue : ℚ
  ebitda : ℚ
  employees : ℚ
  industry : PyVal
  country : PyVal
  growth_rate : ℚ
deriving DecidableEq

/-- The two response shapes the step handler actually returns:
`progress` is `complete=False` with the next step's data, `done` is
`complete=True` with the valuation result. -/
inductive StepResponse : Type
  | progress (ai_message : String) (step : ℤ) (next_field : String)
      (input_type : InputType) (help_text : String) (validation : Validation)
  | done (ai_message : String) (valuation_result : ValuationResult)
deriving DecidableEq

/-- Exceptional outcomes of the step handler: a raised
`HTTPException` (status, detail), or the uncaught `IndexError` of
`CONVERSATION_FLOW[request.step + 1]` (which surfaces as a
server-internal 500). -/
inductive StepFailure : Type
  | httpError (status : ℕ) (detail : String)
  | indexError
deriving DecidableEq

/-- The response of the start endpoint. -/
structure StartConversationResponse : Type where
  session_id : String
  company_info : Dict String
  ai_message : String
  step : ℤ
  next_field : String
  input_type : InputType
  help_text : String
  validation : Validation
deriving DecidableEq

/-- Handler of `POST /api/valuation/conversation/start`: creates a fresh
session (step 0, empty answer mapping) under the given identifier and
returns the first flow step's data.  `session_id` stands for the
freshly drawn `uuid.uuid4()` and `started_at` for
`datetime.utcnow().isoformat()`. -/
def start_conversation (sessions : Dict Session) (company_id : String)
    (session_id : String) (started_at : String) :
    Dict Session × StartConversationResponse :=
  let sessions' := dset sessions session_id
    { company_id := company_id, step := 0, data := [], started_at := started_at }
  let first_step := CONVERSATION_FLOW.headI
  (sessions',
   { session_id := session_id,
     company_info := [("company_name", "Demo Company"),
                      ("industry", "Technology"), ("country", "Belgium")],
     ai_message := first_step.ai_message_template,
     step := 0,
     next_field := first_step.field,
     input_type := first_step.input_type,
     help_text := first_step.help_text,
     validation := first_step.validation })

/-- The response computation of the step handler (source lines
168-218), a function of the already-mutated session: if
`request.step >= len(CONVERSATION_FLOW) - 1`, build the mock valuation
from the answer mapping (with per-field defaults) and return it with
`complete=True`; otherwise look up `CONVERSATION_FLOW[request.step + 1]`
(Python indexing: negative indices read from the end, an out-of-range
index raises `IndexError`) and return its data with `complete=False`.
`now` stands for `int(datetime.utcnow().timestamp())`. -/
def stepResponse (session' : Session) (request : ConversationStepRequest)
    (now : ℕ) : Except StepFailure StepResponse :=
  if request.step ≥ (CONVERSATION_FLOW.length : ℤ) - 1 then
      let revenue : ℚ := dgetD session'.data "revenue" 1000000
      let ebitda : ℚ := dgetD session'.data "ebitda" (revenue * 0.2)
      let employees : ℚ := dgetD session'.data "employees" 10
      let industry : PyVal :=
        match dget session'.data "industry" with
        | some q => PyVal.num q
        | none => PyVal.str "Technology"
      let country : PyVal :=
        match dget session'.data "country" with
        | some q => PyVal.num q
        | none => PyVal.str "Belgium"
      let growth_rate : ℚ := dgetD session'.data "growth_rate" 15
      let valuation : ℤ := pyInt (revenue * 2.5)
      let min_valuation : ℤ := pyInt ((valuation : ℚ) * 0.8)
      let max_valuation : ℤ := pyInt ((valuation : ℚ) * 1.2)
      Except.ok (StepResponse.done
         "Perfect! I have all the information I need. Your business valuation is complete."
         { valuation_id := "val_" ++ toString now,
           equity_value := valuation,
           valuation_range_min := min_valuation,
           valuation_range_max := max_valuation,
           confidence_score := 0.85,
           methodology := "DCF + Market Multiples",
           company_name := "Demo Company",
           revenue := revenue,
           ebitda := ebitda,
           employees := employees,
           industry := industry,
           country := country,
           growth_rate := growth_rate })
  else
      match pyListGet CONVERSATION_FLOW (request.step + 1) with
      | some next_step =>
          Except.ok (StepResponse.progress next_step.ai_message_template
             next_step.step next_step.field next_step.input_type
             next_step.help_text next_step.validation)
      | none => Except.error StepFailure.indexError

/-- Handler of `POST /api/valuation/conversation/step`, from the source
line by line: an unknown `session_id` raises
`HTTPException(400, "Invalid session_id")` with the store untouched;
otherwise the handler records `value` under `field`, sets the session's
step to `request.step + 1` (source lines 164-166 -- this in-place
mutation precedes the response computation, so it persists even when
the later flow-catalog indexing raises), and computes the response with
`stepResponse`. -/
def conversation_step (sessions : Dict Session)
    (request : ConversationStepRequest) (now : ℕ) :
    Dict Session × Except StepFailure StepResponse :=
  match dget sessions request.session_id with
  | none => (sessions, Except.error (StepFailure.httpError 400 "Invalid session_id"))
  | some session =>
    let session' : Session :=
      { session with
        data := dset session.data request.field request.value,
        step := request.step + 1 }
    (dset sessions request.session_id session', stepResponse session' request now)

/-- Whether a step outcome is a successful (non-exception) response. -/
def isOk : Except StepFailure StepResponse → Bool
  | Except.ok _ => true
  | Except.error _ => false

/-- Whether a step outcome signals completion (`complete=True`). -/
def respDone : Except StepFailure StepResponse → Bool
  | Except.ok (StepResponse.done _ _) => true
  | _ => false

/-- The valuation result carried by a completed step outcome. -/
def respResult : Except StepFailure StepResponse → Option ValuationResult
  | Except.ok (StepResponse.done _ r) => some r
  | _ => none

/-- Transport-layer model for the pydantic field `value: float` of
`ConversationStepRequest`: a JSON string submitted for a float-typed
field is coerced with Python float parsing and the request is rejected
with a 422 when that fails.  This recognizer covers plain decimal
numerals (optional sign, digits, at most one decimal point) -- the
fragment relevant here; a word like "Belgium" is rejected either way. -/
def floatCoercible (s : String) : Bool :=
  let body : List Char :=
    match s.toList with
    | c :: rest => if c = '+' || c = '-' then rest else c :: rest
    | [] => []
  body.any (fun c => c.isDigit) &&
  body.all (fun c => c.isDigit || c = '.') &&
  (body.filter (fun c => c = '.')).length ≤ 1

/-- The rounding asserted by the spec's derivation clause
(`estimate = round(revenue × 2.5)` etc.): rounding to the nearest
integer, halves up.  Used only to compare the spec's formula against
the code's truncation; at every input where the two are compared below,
rounding halves to even (Python's `round`) gives the same value. -/
def specRound (q : ℚ) : ℤ := ⌊q + 1 / 2⌋

/-- Session stores reachable through any sequence of Start and Step
operations from the empty initial store. -/
inductive Reachable : Dict Session → Prop
  | init : Reachable []
  | start (sessions : Dict Session) (company_id session_id started_at : String) :
      Reachable sessions →
      Reachable (start_conversation sessions company_id session_id started_at).1
  | step (sessions : Dict Session) (request : ConversationStepRequest) (now : ℕ) :
      Reachable sessions →
      Reachable (conversation_step sessions request now).1

/-! ## Basic dictionary lemmas -/

theorem dget_dset_self {α : Type} (d : Dict α) (k : String) (v : α) :
    dget (dset d k v) k = some v := by
  induction d with
  | nil => simp [dget, dset]
  | cons p rest ih =>
    obtain ⟨k', v'⟩ := p
    by_cases h : k' = k <;> simp [dget, dset, h, ih]

theorem dget_dset_ne {α : Type} (d : Dict α) (k key : String) (v : α)
    (h : key ≠ k) : dget (dset d k v) key = dget d key := by
  have hk : k ≠ key := fun he => h he.symm
  induction d with
  | nil => simp [dget, dset, hk]
  | cons p rest ih =>
    obtain ⟨k', v'⟩ := p
    by_cases hkk : k' = k
    · subst hkk
      simp [dget, dset, hk]
    · simp only [dset, if_neg hkk, dget]
      by_cases hk' : k' = key <;> simp [hk', ih]

/-- Unfolding of the step handler when the session exists: the store is
updated at exactly the session's key (the mutation of source lines
164-166), and the response is `stepResponse` of the mutated session. -/
theorem conversation_step_found (sessions : Dict Session)
    (request : ConversationStepRequest) (now : ℕ) (session : Session)
    (h : dget sessions request.session_id = some session) :
    conversation_step sessions request now =
      (dset sessions request.session_id
        { session with
          data := dset session.data request.field request.value,
          step := request.step + 1 },
       stepResponse
        { session with
          data := dset session.data request.field request.value,
          step := request.step + 1 } request now) := by
  unfold conversation_step
  rw [h]

/-- `stepResponse` signals completion exactly when the declared step
ordinal is at least the last flow ordinal. -/
theorem respDone_stepResponse (session' : Session)
    (request : ConversationStepRequest) (now : ℕ) :
    respDone (stepResponse session' request now) = true ↔
      (CONVERSATION_FLOW.length : ℤ) - 1 ≤ request.step := by
  unfold stepResponse
  by_cases h : (CONVERSATION_FLOW.length : ℤ) - 1 ≤ request.step
  · simp [ge_iff_le, h, respDone]
  · simp only [ge_iff_le, if_neg h]
    constructor
    · intro hc
      cases hll : pyListGet CONVERSATION_FLOW (request.step + 1) <;>
        simp [hll, respDone] at hc
    · intro hc
      exact absurd hc h

/-! ## Claim theorems -/

/-- C8 (confirmed): a Step call whose session identifier is absent from
the session store fails with the 400 "Invalid session_id" client error
(the code's SessionNotFound), and the store -- hence every session's
state -- is returned unchanged. -/
theorem C8_unknown_session (sessions : Dict Session)
    (request : ConversationStepRequest) (now : ℕ)
    (h : dget sessions request.session_id = none) :
    conversation_step sessions request now =
      (sessions, Except.error (StepFailure.httpError 400 "Invalid session_id")) := by
  unfold conversation_step
  rw [h]

/-- Witness for C8: the unknown identifier "does-not-exist" on the
empty store. -/
theorem C8_unknown_session_witness :
    conversation_step [] ⟨"co-1", "does-not-exist", 0, "revenue", 500⟩ 0 =
      ([], Except.error (StepFailure.httpError 400 "Invalid session_id")) :=
  C8_unknown_session [] ⟨"co-1", "does-not-exist", 0, "revenue", 500⟩ 0 rfl

/-- C9 (confirmed): a Step call targeting one session leaves every
other session's stored state unchanged, and its response depends only
on the targeted session's state (two stores agreeing on the targeted
identifier produce the same response). -/
theorem C9_session_isolation (sessions other : Dict Session)
    (request : ConversationStepRequest) (now : ℕ)
    (h : dget sessions request.session_id = dget other request.session_id) :
    (conversation_step sessions request now).2 =
      (conversation_step other request now).2 ∧
    ∀ sid, sid ≠ request.session_id →
      dget (conversation_step sessions request now).1 sid = dget sessions sid := by
  constructor
  · rcases hc : dget sessions request.session_id with _ | s
    · have ho : dget other request.session_id = none := by rw [← h, hc]
      simp [conversation_step, hc, ho]
    · have ho : dget other request.session_id = some s := by rw [← h, hc]
      simp [conversation_step, hc, ho]
  · intro sid hsid
    rcases hc : dget sessions request.session_id with _ | s
    · simp [conversation_step, hc]
    · rw [conversation_step_found sessions request now s hc]
      exact dget_dset_ne sessions request.session_id sid _ hsid

/-- Witness for C9: a two-session store and a one-session store that
agree on session "a"; stepping "a" gives equal responses and leaves
session "b" untouched. -/
theorem C9_session_isolation_witness :
    ((conversation_step [("a", ⟨"co-1", 0, [], "t0"⟩), ("b", ⟨"co-2", 2, [("revenue", 60000)], "t1"⟩)]
        ⟨"co-1", "a", 0, "revenue", 20000⟩ 4).2 =
      (conversation_step [("a", ⟨"co-1", 0, [], "t0"⟩)]
        ⟨"co-1", "a", 0, "revenue", 20000⟩ 4).2) ∧
    ∀ sid, sid ≠ "a" →
      dget (conversation_step [("a", ⟨"co-1", 0, [], "t0"⟩), ("b", ⟨"co-2", 2, [("revenue", 60000)], "t1"⟩)]
          ⟨"co-1", "a", 0, "revenue", 20000⟩ 4).1 sid =
        dget [("a", ⟨"co-1", 0, [], "t0"⟩), ("b", ⟨"co-2", 2, [("revenue", 60000)], "t1"⟩)] sid :=
  C9_session_isolation
    [("a", ⟨"co-1", 0, [], "t0"⟩), ("b", ⟨"co-2", 2, [("revenue", 60000)], "t1"⟩)]
    [("a", ⟨"co-1", 0, [], "t0"⟩)] ⟨"co-1", "a", 0, "revenue", 20000⟩ 4 rfl

/-- C1 (counterexample): the spec's own example -- a session at step 0
receives Step(step=0, field="revenue", value=500); 500 is below the
revenue step's min bound 10000, yet the call succeeds (no
ValidationError exists in the code) and the session is mutated: the
answer mapping gains revenue=500 and the step ordinal becomes 1. -/
theorem C1_validation_counterexample :
    (pyListGet CONVERSATION_FLOW 0).map (fun fs => fs.validation.min) = some 10000 ∧
    (500 : ℚ) < 10000 ∧
    isOk (conversation_step [("sid", ⟨"co-1", 0, [], "t0"⟩)]
        ⟨"co-1", "sid", 0, "revenue", 500⟩ 0).2 = true ∧
    dget (conversation_step [("sid", ⟨"co-1", 0, [], "t0"⟩)]
        ⟨"co-1", "sid", 0, "revenue", 500⟩ 0).1 "sid" =
      some ⟨"co-1", 1, [("revenue", 500)], "t0"⟩ := by
  refine ⟨by simp [pyListGet, CONVERSATION_FLOW], by norm_num, ?_, ?_⟩ <;>
    simp [conversation_step, stepResponse, dget, dset, pyListGet,
      CONVERSATION_FLOW, isOk]

/-- C1 (amended): the step handler performs no validation at all: for
every Step call on an existing session, whatever the submitted value,
the session is mutated -- the answer mapping records the value under
the submitted field and the step ordinal is set to declaredStep + 1;
the flow's validation bounds are only echoed to clients, never
enforced, and no ValidationError outcome exists. -/
theorem C1_no_validation (sessions : Dict Session)
    (request : ConversationStepRequest) (now : ℕ) (session : Session)
    (h : dget sessions request.session_id = some session) :
    dget (conversation_step sessions request now).1 request.session_id =
      some { session with
             data := dset session.data request.field request.value,
             step := request.step + 1 } := by
  rw [conversation_step_found sessions request now session h]
  exact dget_dset_self sessions request.session_id _

/-- Witness for C1 (amended): the out-of-bounds value 500 is recorded
and the ordinal advanced. -/
theorem C1_no_validation_witness :
    dget (conversation_step [("sid", ⟨"co-1", 0, [], "t0"⟩)]
        ⟨"co-1", "sid", 0, "revenue", 500⟩ 3).1 "sid" =
      some { company_id := "co-1", step := 0 + 1,
             data := dset [] "revenue" 500, started_at := "t0" } :=
  C1_no_validation [("sid", ⟨"co-1", 0, [], "t0"⟩)]
    ⟨"co-1", "sid", 0, "revenue", 500⟩ 3 ⟨"co-1", 0, [], "t0"⟩ rfl

/-- C2 (counterexample): a Step call declaring step 6 (not equal to
stepCount - 1 = 5) still signals completion: the code tests
`request.step >= len(CONVERSATION_FLOW) - 1`, not equality. -/
theorem C2_completion_counterexample :
    (6 : ℤ) ≠ (stepCount : ℤ) - 1 ∧
    respDone (conversation_step [("sid", ⟨"co-1", 6, [("revenue", 20000)], "t0"⟩)]
        ⟨"co-1", "sid", 6, "ebitda", 1⟩ 0).2 = true := by
  constructor
  · simp [stepCount, CONVERSATION_FLOW]
  · simp [conversation_step, stepResponse, dget, dset, CONVERSATION_FLOW, respDone]

/-- C2 (amended): for every Step call on an existing session, the
response signals completion if and only if the declared step ordinal is
at least stepCount - 1 (declaredStep >= 5 for the canonical flow); for
every declared ordinal below that, the response is not complete. -/
theorem C2_completion_iff (sessions : Dict Session)
    (request : ConversationStepRequest) (now : ℕ) (session : Session)
    (h : dget sessions request.session_id = some session) :
    (respDone (conversation_step sessions request now).2 = true ↔
      (stepCount : ℤ) - 1 ≤ request.step) := by
  rw [conversation_step_found sessions request now session h]
  exact respDone_stepResponse _ request now

/-- Witness for C2 (amended): at the declared ordinal 5 of the
canonical flow. -/
theorem C2_completion_iff_witness :
    respDone (conversation_step [("sid", ⟨"co-1", 5, [("revenue", 2000000)], "t0"⟩)]
        ⟨"co-1", "sid", 5, "country", 2⟩ 0).2 = true ↔
      (stepCount : ℤ) - 1 ≤ 5 :=
  C2_completion_iff [("sid", ⟨"co-1", 5, [("revenue", 2000000)], "t0"⟩)]
    ⟨"co-1", "sid", 5, "country", 2⟩ 0 ⟨"co-1", 5, [("revenue", 2000000)], "t0"⟩ rfl

/-- C3 (counterexample): a session whose stored step ordinal is 3
receives a successful Step call declaring step 0; the stored ordinal
becomes 1 -- not 3 + 1 -- and has decreased. -/
theorem C3_monotonic_counterexample :
    (dget [("sid", (⟨"co-1", 3, [("revenue", 20000)], "t0"⟩ : Session))] "sid").map
        Session.step = some 3 ∧
    isOk (conversation_step [("sid", ⟨"co-1", 3, [("revenue", 20000)], "t0"⟩)]
        ⟨"co-1", "sid", 0, "revenue", 30000⟩ 0).2 = true ∧
    (dget (conversation_step [("sid", ⟨"co-1", 3, [("revenue", 20000)], "t0"⟩)]
        ⟨"co-1", "sid", 0, "revenue", 30000⟩ 0).1 "sid").map Session.step = some 1 ∧
    (1 : ℤ) ≠ 3 + 1 ∧ (1 : ℤ) < 3 := by
  refine ⟨by simp [dget], ?_, ?_, by norm_num, by norm_num⟩ <;>
    simp [conversation_step, stepResponse, dget, dset, pyListGet,
      CONVERSATION_FLOW, isOk]

/-- C3 (amended): a Step call on an existing session sets the stored
step ordinal to declaredStep + 1 -- a quantity under the caller's
control, independent of the previously stored ordinal; it equals the
old ordinal plus 1 only when the declared ordinal matches the stored
one, and decreases the ordinal whenever declaredStep + 1 is below it. -/
theorem C3_step_set_to_declared (sessions : Dict Session)
    (request : ConversationStepRequest) (now : ℕ) (session : Session)
    (h : dget sessions request.session_id = some session) :
    (dget (conversation_step sessions request now).1 request.session_id).map
        Session.step = some (request.step + 1) := by
  rw [conversation_step_found sessions request now session h, dget_dset_self]
  rfl

/-- Witness for C3 (amended): declared step 0 against a session stored
at ordinal 3 yields stored ordinal 1. -/
theorem C3_step_set_to_declared_witness :
    (dget (conversation_step [("sid", ⟨"co-1", 3, [("revenue", 20000)], "t0"⟩)]
        ⟨"co-1", "sid", 0, "revenue", 30000⟩ 0).1 "sid").map Session.step =
      some (0 + 1) :=
  C3_step_set_to_declared [("sid", ⟨"co-1", 3, [("revenue", 20000)], "t0"⟩)]
    ⟨"co-1", "sid", 0, "revenue", 30000⟩ 0 ⟨"co-1", 3, [("revenue", 20000)], "t0"⟩ rfl

/-- C4 (counterexample): a fresh session (empty answer mapping)
receives a single Step call declaring step 5; a valuation result is
produced although only the submitted field "country" is in the mapping
-- "revenue" is absent and the default fallback 1000000 is used as the
result's revenue. -/
theorem C4_coverage_counterexample :
    respDone (conversation_step [("sid", ⟨"co-1", 0, [], "t0"⟩)]
        ⟨"co-1", "sid", 5, "country", 7⟩ 0).2 = true ∧
    dget (conversation_step [("sid", ⟨"co-1", 0, [], "t0"⟩)]
        ⟨"co-1", "sid", 5, "country", 7⟩ 0).1 "sid" =
      some ⟨"co-1", 6, [("country", 7)], "t0"⟩ ∧
    dget [("country", (7 : ℚ))] "revenue" = none ∧
    (respResult (conversation_step [("sid", ⟨"co-1", 0, [], "t0"⟩)]
        ⟨"co-1", "sid", 5, "country", 7⟩ 0).2).map (fun r => r.revenue) =
      some 1000000 := by
  refine ⟨?_, ?_, by simp [dget], ?_⟩ <;>
    simp [conversation_step, stepResponse, dget, dset, dgetD,
      CONVERSATION_FLOW, respDone, respResult]

/-- C4 (amended): completion does not by itself guarantee coverage
(see the counterexample); what holds is the converse direction: when
the answer mapping after recording the submitted value does contain a
value for every one of the six flow fields, the produced result is
computed entirely from those caller-submitted values and no default
fallback enters. -/
theorem C4_result_from_answers (sessions : Dict Session)
    (request : ConversationStepRequest) (now : ℕ) (session : Session)
    (h : dget sessions request.session_id = some session)
    (hdone : (stepCount : ℤ) - 1 ≤ request.step)
    (r e emp ind c g : ℚ)
    (hr : dget (dset session.data request.field request.value) "revenue" = some r)
    (he : dget (dset session.data request.field request.value) "ebitda" = some e)
    (hemp : dget (dset session.data request.field request.value) "employees" = some emp)
    (hind : dget (dset session.data request.field request.value) "industry" = some ind)
    (hc : dget (dset session.data request.field request.value) "country" = some c)
    (hg : dget (dset session.data request.field request.value) "growth_rate" = some g) :
    respResult (conversation_step sessions request now).2 =
      some { valuation_id := "val_" ++ toString now,
             equity_value := pyInt (r * 2.5),
             valuation_range_min := pyInt ((pyInt (r * 2.5) : ℚ) * 0.8),
             valuation_range_max := pyInt ((pyInt (r * 2.5) : ℚ) * 1.2),
             confidence_score := 0.85,
             methodology := "DCF + Market Multiples",
             company_name := "Demo Company",
             revenue := r,
             ebitda := e,
             employees := emp,
             industry := PyVal.num ind,
             country := PyVal.num c,
             growth_rate := g } := by
  rw [conversation_step_found sessions request now session h]
  have hd : (CONVERSATION_FLOW.length : ℤ) - 1 ≤ request.step := hdone
  unfold stepResponse
  rw [if_pos hd]
  simp [respResult, dgetD, hr, he, hemp, hind, hc, hg]

/-- Witness for C4 (amended): a session holding answers for the first
five fields submits "country" at step 5; the result echoes exactly the
six submitted values. -/
theorem C4_result_from_answers_witness :
    respResult (conversation_step
        [("sid", ⟨"co-1", 5, [("revenue", 2000000), ("ebitda", 400000),
          ("employees", 10), ("industry", 1), ("growth_rate", 15)], "t0"⟩)]
        ⟨"co-1", "sid", 5, "country", 2⟩ 7).2 =
      some { valuation_id := "val_" ++ toString 7,
             equity_value := pyInt ((2000000 : ℚ) * 2.5),
             valuation_range_min := pyInt ((pyInt ((2000000 : ℚ) * 2.5) : ℚ) * 0.8),
             valuation_range_max := pyInt ((pyInt ((2000000 : ℚ) * 2.5) : ℚ) * 1.2),
             confidence_score := 0.85,
             methodology := "DCF + Market Multiples",
             company_name := "Demo Company",
             revenue := 2000000,
             ebitda := 400000,
             employees := 10,
             industry := PyVal.num 1,
             country := PyVal.num 2,
             growth_rate := 15 } :=
  C4_result_from_answers
    [("sid", ⟨"co-1", 5, [("revenue", 2000000), ("ebitda", 400000),
      ("employees", 10), ("industry", 1), ("growth_rate", 15)], "t0"⟩)]
    ⟨"co-1", "sid", 5, "country", 2⟩ 7
    ⟨"co-1", 5, [("revenue", 2000000), ("ebitda", 400000),
      ("employees", 10), ("industry", 1), ("growth_rate", 15)], "t0"⟩
    rfl (by decide) 2000000 400000 10 1 2 15 rfl rfl rfl rfl rfl rfl

/-- C6 (counterexample): with recorded revenue 10003 (a valid input:
10003 * 2.5 = 25007.5 is exact in binary floating point), the code's
`int()` truncation produces estimate 25007, while the claimed
round(revenue * 2.5) is 25008 (so is Python's half-to-even round). -/
theorem C6_rounding_counterexample :
    (respResult (conversation_step
        [("sid", ⟨"co-1", 5, [("revenue", 10003), ("ebitda", 2000),
          ("employees", 5), ("industry", 1), ("growth_rate", 10)], "t0"⟩)]
        ⟨"co-1", "sid", 5, "country", 2⟩ 0).2).map (fun r => r.equity_value) =
      some 25007 ∧
    specRound ((10003 : ℚ) * 2.5) = 25008 ∧
    (25007 : ℤ) ≠ 25008 := by
  refine ⟨?_, by norm_num [specRound], by norm_num⟩
  simp [conversation_step, stepResponse, dget, dset, dgetD,
    CONVERSATION_FLOW, respResult]
  norm_num [pyInt]

/-- C6 (amended): for every completing Step call on an existing
session, the result satisfies estimate = trunc(revenue * 2.5)
(truncation toward zero, Python's `int()`, not rounding to nearest),
low = trunc(estimate * 0.8), high = trunc(estimate * 1.2),
confidence = 0.85 and the fixed methodology label, where revenue is
the mapping's recorded value (default 1000000 when absent); apart from
the time-derived identifier, every field is this deterministic
function of the answer mapping. -/
theorem C6_result_truncation (sessions : Dict Session)
    (request : ConversationStepRequest) (now : ℕ) (session : Session)
    (h : dget sessions request.session_id = some session)
    (hdone : (stepCount : ℤ) - 1 ≤ request.step) :
    ∃ r, respResult (conversation_step sessions request now).2 = some r ∧
      r.equity_value =
        pyInt (dgetD (dset session.data request.field request.value)
          "revenue" 1000000 * 2.5) ∧
      r.valuation_range_min = pyInt ((r.equity_value : ℚ) * 0.8) ∧
      r.valuation_range_max = pyInt ((r.equity_value : ℚ) * 1.2) ∧
      r.confidence_score = 0.85 ∧
      r.methodology = "DCF + Market Multiples" ∧
      r.valuation_id = "val_" ++ toString now ∧
      r.revenue = dgetD (dset session.data request.field request.value)
        "revenue" 1000000 := by
  rw [conversation_step_found sessions request now session h]
  have hd : (CONVERSATION_FLOW.length : ℤ) - 1 ≤ request.step := hdone
  unfold stepResponse
  rw [if_pos hd]
  exact ⟨_, rfl, rfl, rfl, rfl, rfl, rfl, rfl, rfl⟩

/-- Witness for C6 (amended): the revenue-10003 session completing at
step 5. -/
theorem C6_result_truncation_witness :
    ∃ r, respResult (conversation_step
        [("sid", ⟨"co-1", 5, [("revenue", 10003), ("ebitda", 2000),
          ("employees", 5), ("industry", 1), ("growth_rate", 10)], "t0"⟩)]
        ⟨"co-1", "sid", 5, "country", 2⟩ 9).2 = some r ∧
      r.equity_value =
        pyInt (dgetD (dset [("revenue", 10003), ("ebitda", 2000),
          ("employees", 5), ("industry", 1), ("growth_rate", 10)] "country" 2)
          "revenue" 1000000 * 2.5) ∧
      r.valuation_range_min = pyInt ((r.equity_value : ℚ) * 0.8) ∧
      r.valuation_range_max = pyInt ((r.equity_value : ℚ) * 1.2) ∧
      r.confidence_score = 0.85 ∧
      r.methodology = "DCF + Market Multiples" ∧
      r.valuation_id = "val_" ++ toString 9 ∧
      r.revenue = dgetD (dset [("revenue", 10003), ("ebitda", 2000),
        ("employees", 5), ("industry", 1), ("growth_rate", 10)] "country" 2)
        "revenue" 1000000 :=
  C6_result_truncation
    [("sid", ⟨"co-1", 5, [("revenue", 10003), ("ebitda", 2000),
      ("employees", 5), ("industry", 1), ("growth_rate", 10)], "t0"⟩)]
    ⟨"co-1", "sid", 5, "country", 2⟩ 9
    ⟨"co-1", 5, [("revenue", 10003), ("ebitda", 2000),
      ("employees", 5), ("industry", 1), ("growth_rate", 10)], "t0"⟩
    rfl (by decide)

/-- C5 (code bug evidence): the flow catalog declares step 5 ("country")
as a text step, but the request model types `value` as float, so the
text value "Belgium" cannot pass the transport layer
(`floatCoercible "Belgium" = false`: the request is rejected before the
handler runs).  Had the final value been expressible, the scenario's
numbers hold: with revenue 2000000 recorded, the completing call
returns estimate 5000000 and range [4000000, 6000000]. -/
theorem C5_text_value_rejected :
    floatCoercible "Belgium" = false ∧
    (pyListGet CONVERSATION_FLOW 5).map (fun fs => fs.input_type) =
      some InputType.text ∧
    (pyListGet CONVERSATION_FLOW 3).map (fun fs => fs.input_type) =
      some InputType.text ∧
    (respResult (conversation_step
        [("sid", ⟨"co-1", 5, [("revenue", 2000000), ("ebitda", 400000),
          ("employees", 10), ("industry", 1), ("growth_rate", 15)], "t0"⟩)]
        ⟨"co-1", "sid", 5, "country", 1⟩ 0).2).map
        (fun r => (r.equity_value, r.valuation_range_min, r.valuation_range_max)) =
      some (5000000, 4000000, 6000000) := by
  refine ⟨by decide, by simp [pyListGet, CONVERSATION_FLOW],
    by simp [pyListGet, CONVERSATION_FLOW], ?_⟩
  simp [conversation_step, stepResponse, dget, dset, dgetD,
    CONVERSATION_FLOW, respResult]
  norm_num [pyInt]

/-- C7 (counterexample): starting a session and stepping it once with
declared step 100 is a reachable two-operation history whose stored
step ordinal is 101, outside [0, stepCount]. -/
theorem C7_invariant_counterexample :
    Reachable (conversation_step (start_conversation [] "co-1" "sid" "t0").1
        ⟨"co-1", "sid", 100, "revenue", 50000⟩ 0).1 ∧
    (dget (conversation_step (start_conversation [] "co-1" "sid" "t0").1
        ⟨"co-1", "sid", 100, "revenue", 50000⟩ 0).1 "sid").map Session.step =
      some 101 ∧
    ¬ (101 : ℤ) ≤ (stepCount : ℤ) := by
  refine ⟨Reachable.step _ _ _ (Reachable.start _ _ _ _ Reachable.init), ?_, by decide⟩
  rw [conversation_step_found (start_conversation [] "co-1" "sid" "t0").1
    ⟨"co-1", "sid", 100, "revenue", 50000⟩ 0 ⟨"co-1", 0, [], "t0"⟩ rfl,
    dget_dset_self]
  rfl

/-- C7 (amended): the stored step ordinal obeys no interval invariant:
every integer whatsoever -- negative, or far beyond stepCount -- is the
stored ordinal of a session reachable through a Start followed by one
Step call (the handler stores declaredStep + 1 unconditionally), so no
state is absorbing and coverage of all fields is not implied at
stepCount. -/
theorem C7_every_ordinal_reachable (k : ℤ) :
    ∃ sessions : Dict Session, Reachable sessions ∧
      (dget sessions "sid").map Session.step = some k := by
  refine ⟨(conversation_step (start_conversation [] "co-1" "sid" "t0").1
      ⟨"co-1", "sid", k - 1, "revenue", 50000⟩ 0).1,
    Reachable.step _ _ _ (Reachable.start _ _ _ _ Reachable.init), ?_⟩
  rw [conversation_step_found (start_conversation [] "co-1" "sid" "t0").1
    ⟨"co-1", "sid", k - 1, "revenue", 50000⟩ 0 ⟨"co-1", 0, [], "t0"⟩ rfl,
    dget_dset_self]
  simp

/-- C10 (confirmed): on an existing session, a declared step ordinal in
[-6, -2] does not fail: the stored ordinal becomes the negative
declaredStep + 1 and the response is the in-progress data of the flow
entry at Python index declaredStep + 1 counted from the end of the
catalog; a declared ordinal at most -8 sends the lookup outside the
catalog and raises (IndexError). -/
theorem C10_negative_ordinals (sessions : Dict Session)
    (request : ConversationStepRequest) (now : ℕ) (session : Session)
    (h : dget sessions request.session_id = some session) :
    ((-6 ≤ request.step ∧ request.step ≤ -2) →
      ∃ fs, pyListGet CONVERSATION_FLOW (request.step + 1) = some fs ∧
        (conversation_step sessions request now).2 =
          Except.ok (StepResponse.progress fs.ai_message_template fs.step
            fs.field fs.input_type fs.help_text fs.validation) ∧
        (dget (conversation_step sessions request now).1 request.session_id).map
          Session.step = some (request.step + 1)) ∧
    (request.step ≤ -8 →
      (conversation_step sessions request now).2 =
        Except.error StepFailure.indexError) := by
  obtain ⟨cid, sid, n, f, v⟩ := request
  rw [conversation_step_found sessions ⟨cid, sid, n, f, v⟩ now session h]
  dsimp only
  have hlen : (CONVERSATION_FLOW.length : ℤ) = 6 := rfl
  constructor
  · rintro ⟨h1, h2⟩
    interval_cases n <;>
      exact ⟨_, rfl, rfl, by rw [dget_dset_self]; rfl⟩
  · intro h8
    unfold stepResponse
    dsimp only
    rw [if_neg (by rw [ge_iff_le, hlen]; omega)]
    unfold pyListGet
    rw [if_neg (by omega), if_neg (by rw [hlen]; omega)]

/-- Witness for C10: declared step -2 on a fresh session yields the
"country" step from the end of the catalog, and declared step -8
raises. -/
theorem C10_negative_ordinals_witness :
    ((-6 ≤ (-2 : ℤ) ∧ (-2 : ℤ) ≤ -2) →
      ∃ fs, pyListGet CONVERSATION_FLOW (-2 + 1) = some fs ∧
        (conversation_step [("sid", ⟨"co-1", 0, [], "t0"⟩)]
            ⟨"co-1", "sid", -2, "x", 1⟩ 0).2 =
          Except.ok (StepResponse.progress fs.ai_message_template fs.step
            fs.field fs.input_type fs.help_text fs.validation) ∧
        (dget (conversation_step [("sid", ⟨"co-1", 0, [], "t0"⟩)]
            ⟨"co-1", "sid", -2, "x", 1⟩ 0).1 "sid").map Session.step =
          some (-2 + 1)) ∧
    ((-2 : ℤ) ≤ -8 →
      (conversation_step [("sid", ⟨"co-1", 0, [], "t0"⟩)]
          ⟨"co-1", "sid", -2, "x", 1⟩ 0).2 =
        Except.error StepFailure.indexError) :=
  C10_negative_ordinals [("sid", ⟨"co-1", 0, [], "t0"⟩)]
    ⟨"co-1", "sid", -2, "x", 1⟩ 0 ⟨"co-1", 0, [], "t0"⟩ rfl

/-- Witness for C7 (amended): ordinal 101, far beyond stepCount, is
reachable. -/
theorem C7_every_ordinal_reachable_witness :
    ∃ sessions : Dict Session, Reachable sessions ∧
      (dget sessions "sid").map Session.step = some 101 :=
  C7_every_ordinal_reachable 101
